import Mathlib

/-!
Verification development for the StockBuyer multi-strategy trading core.

Python floats are embedded as rationals (`ℚ`); the SQLite trade table is
embedded as an append-only list; a Python `dict` of open positions is
embedded as an association list with uniquely handled keys; `datetime.date`
values are embedded as integers (only equality of dates is ever used).
Each definition is translated from the named source function.
-/

namespace StockBuyer

/-- Embeds Python `x or d` applied to a float-typed field: `0.0` is falsy in
Python, so a zero value falls back to the default exactly as a missing value
would; any non-zero value is kept (used by `calculate_risk_score` in
`src/src/multi_strategy_agent.py`, `src/src/trading_agent.py` and
`src/src/research_engine.py`). -/
def orFalsy (x d : ℚ) : ℚ := if x = 0 then d else x

/-- The `TradingOpportunity` dataclass
(`src/src/models/trading_opportunity.py`).  The derived fields carry the
defaults written by `__post_init__` (`risk_score = 0.5`,
`potential_return = 0.0`, `score = 0.0`).  The `timestamp` field is not
read by any of the verified operations and is omitted. -/
structure TradingOpportunity where
  symbol : String
  current_price : ℚ
  volume_ratio : ℚ
  volatility : ℚ
  technical_score : ℚ
  sentiment_score : ℚ
  news_score : ℚ
  market_cap : ℚ
  risk_score : ℚ := 1 / 2
  potential_return : ℚ := 0
  score : ℚ := 0
  deriving DecidableEq, Repr

/-- Strategy configuration: the fields of `TradingConfig` and `SystemConfig`
(`src/src/config.py`) that the trading core reads, flattened into one
record (`config.trading.*` and `config.system.*` in the source). -/
structure TradingConfig where
  account_balance : ℚ
  risk_percentage : ℚ
  max_position_size : ℚ
  stop_loss_percentage : ℚ
  take_profit_percentage : ℚ
  min_score_threshold : ℚ
  max_risk_score : ℚ
  max_daily_trades : ℕ
  max_daily_loss : ℚ
  deriving DecidableEq, Repr

/-- Trade side, the `type` column of the `trades` table
(`"BUY"` / `"SELL"` in `src/src/portfolio_manager.py`). -/
inductive Side where
  | buy
  | sell
  deriving DecidableEq, Repr

/-- A row of the append-only `trades` table
(`src/src/portfolio_manager.py`, `init_database`).  BUY rows carry the
opportunity score and risk score; SELL rows leave them NULL. -/
structure TradeRecord where
  symbol : String
  shares : ℤ
  price : ℚ
  total : ℚ
  side : Side
  opportunity_score : Option ℚ
  risk_score : Option ℚ
  deriving DecidableEq, Repr

/-- An open position: the per-symbol dict stored in
`PortfolioManager.positions` (`src/src/portfolio_manager.py`,
`add_position`). -/
structure Position where
  shares : ℤ
  avg_price : ℚ
  current_price : ℚ
  total_value : ℚ
  pnl : ℚ
  score : ℚ
  risk_score : ℚ
  deriving DecidableEq, Repr

/-- Lookup in the open-positions dict (`self.positions[symbol]` /
`symbol in self.positions`). -/
def dictLookup (s : String) : List (String × Position) → Option Position
  | [] => none
  | (k, v) :: rest => if k = s then some v else dictLookup s rest

/-- Assignment `self.positions[symbol] = {...}`: replaces an existing entry
in place, otherwise appends. -/
def dictInsert (s : String) (v : Position) :
    List (String × Position) → List (String × Position)
  | [] => [(s, v)]
  | (k, w) :: rest =>
    if k = s then (s, v) :: rest else (k, w) :: dictInsert s v rest

/-- Deletion `del self.positions[symbol]`. -/
def dictErase (s : String) :
    List (String × Position) → List (String × Position)
  | [] => []
  | (k, v) :: rest =>
    if k = s then dictErase s rest else (k, v) :: dictErase s rest

/-- The mutable state of one strategy's `PortfolioManager`
(`src/src/portfolio_manager.py`, `__init__`), together with the
append-only `trades` table of its per-strategy database.
`last_reset_date` embeds the stored `datetime.date` as an integer day. -/
structure PortfolioState where
  account_balance : ℚ
  positions : List (String × Position)
  total_pnl : ℚ
  daily_pnl : ℚ
  trades_today : ℤ
  last_reset_date : ℤ
  trade_log : List TradeRecord
  deriving DecidableEq, Repr

/-- Embeds `PortfolioManager.get_available_capital`
(`src/src/portfolio_manager.py`): returns the current account balance. -/
def get_available_capital (st : PortfolioState) : ℚ := st.account_balance

/-- Embeds `PortfolioManager.has_position` (`src/src/portfolio_manager.py`):
the test `symbol in self.positions`. -/
def has_position (st : PortfolioState) (symbol : String) : Bool :=
  (dictLookup symbol st.positions).isSome

/-- Embeds `PortfolioManager.add_position` (`src/src/portfolio_manager.py`,
lines 95-151).  With `shares ≤ 0` the method logs a warning and returns with
no state change.  Otherwise it unconditionally debits the balance by
`shares * price` (there is no capital check in the source), stores the
position dict, inserts a BUY row into the `trades` table, and increments
`trades_today`. -/
def add_position (st : PortfolioState) (symbol : String) (shares : ℤ)
    (price score risk_score : ℚ) : PortfolioState :=
  if shares ≤ 0 then st
  else
    let total_value : ℚ := shares * price
    { st with
      account_balance := st.account_balance - total_value
      positions := dictInsert symbol
        { shares := shares, avg_price := price, current_price := price
          total_value := total_value, pnl := 0
          score := score, risk_score := risk_score } st.positions
      trade_log := st.trade_log ++
        [{ symbol := symbol, shares := shares, price := price
           total := total_value, side := Side.buy
           opportunity_score := some score, risk_score := some risk_score }]
      trades_today := st.trades_today + 1 }

/-- The reason string passed to `close_position`
(`"Stop Loss"` / `"Take Profit"` / the caller's text in
`src/src/portfolio_manager.py`). -/
inductive ExitReason where
  | stopLoss
  | takeProfit
  | manual
  deriving DecidableEq, Repr

/-- Embeds `PortfolioManager.close_position` (`src/src/portfolio_manager.py`,
lines 233-276).  A missing symbol raises `KeyError` before any mutation;
the surrounding `except` only logs, so the state is unchanged.  Otherwise:
credit the balance with `shares * current_price`, add the realized P&L to
`total_pnl` and `daily_pnl`, delete the position, and insert a SELL row.
The `reason` argument is only logged and affects no state. -/
def close_position (st : PortfolioState) (symbol : String)
    (current_price : ℚ) (_reason : ExitReason) : PortfolioState :=
  match dictLookup symbol st.positions with
  | none => st
  | some pos =>
    let total_value : ℚ := pos.shares * current_price
    let pnl : ℚ := total_value - pos.shares * pos.avg_price
    { st with
      account_balance := st.account_balance + total_value
      total_pnl := st.total_pnl + pnl
      daily_pnl := st.daily_pnl + pnl
      positions := dictErase symbol st.positions
      trade_log := st.trade_log ++
        [{ symbol := symbol, shares := pos.shares, price := current_price
           total := total_value, side := Side.sell
           opportunity_score := none, risk_score := none }] }

/-- The exit decision taken by `check_stop_loss_take_profit`
(`src/src/portfolio_manager.py`, lines 208-231) for a position bought at
`avg_price` and now trading at `current_price`: the stop-loss test
`pct ≤ -stop_loss_percentage` runs first, then the take-profit test
`pct ≥ take_profit_percentage`; each branch returns immediately. -/
def exitDecision (config : TradingConfig) (avg_price current_price : ℚ) :
    Option ExitReason :=
  let price_change_pct : ℚ := (current_price - avg_price) / avg_price * 100
  if price_change_pct ≤ -config.stop_loss_percentage then some ExitReason.stopLoss
  else if price_change_pct ≥ config.take_profit_percentage then
    some ExitReason.takeProfit
  else none

/-- Embeds `PortfolioManager.check_stop_loss_take_profit`
(`src/src/portfolio_manager.py`, lines 208-231).  A missing symbol raises
`KeyError`, caught and logged: no change.  Otherwise the position is closed
with the triggered reason, or nothing happens. -/
def check_stop_loss_take_profit (config : TradingConfig)
    (st : PortfolioState) (symbol : String) (current_price : ℚ) :
    PortfolioState :=
  match dictLookup symbol st.positions with
  | none => st
  | some pos =>
    match exitDecision config pos.avg_price current_price with
    | some r => close_position st symbol current_price r
    | none => st

/-- Embeds `PortfolioManager.reset_daily_stats` (`src/src/portfolio_manager.py`,
lines 364-370).  The source polls `datetime.now().date()`; here that polled
date is the explicit `today` argument.  The counters reset exactly when the
polled date differs from the stored `last_reset_date`. -/
def reset_daily_stats (st : PortfolioState) (today : ℤ) : PortfolioState :=
  if today ≠ st.last_reset_date then
    { st with daily_pnl := 0, trades_today := 0, last_reset_date := today }
  else st

/-- Python `min(a, b)` on floats: the first argument when `a ≤ b`, else the
second. -/
def pymin (a b : ℚ) : ℚ := if a ≤ b then a else b

/-- Python `max(a, b)` on floats: the first argument when `b ≤ a`, else the
second. -/
def pymax (a b : ℚ) : ℚ := if b ≤ a then a else b

/-- Embeds `calculate_risk_score` (`src/src/multi_strategy_agent.py` lines 291-298,
with an identical body in `src/src/trading_agent.py` lines 95-103 and
`src/src/research_engine.py`): each input field passes through the Python
`or` default (so a zero value falls back like a missing one), then
`risk_score = volatility * (1 / volume_ratio) * (1e9 / market_cap)`,
capped at `1.0` by `min`; there is no lower clamp in the source. -/
def calculate_risk_score (o : TradingOpportunity) : ℚ :=
  let volatility := orFalsy o.volatility (2 / 10)
  let volume_ratio := orFalsy o.volume_ratio 1
  let market_cap := orFalsy o.market_cap 1000000000
  pymin (volatility * (1 / volume_ratio) * (1000000000 / market_cap)) 1

/-- Embeds `calculate_potential_return` (`src/src/multi_strategy_agent.py` lines
300-311): weighted sum of sentiment, technical and news scores, floored at
`0` by `max`.  The `or 0.0` guards in the source are the identity on
float-valued fields (zero maps to zero) and are dropped. -/
def calculate_potential_return (o : TradingOpportunity) : ℚ :=
  pymax (o.sentiment_score * (3 / 10) + o.technical_score * (4 / 10) + o.news_score * (3 / 10)) 0

/-- The loop body of `analyze_and_rank_opportunities`
(`src/src/multi_strategy_agent.py` lines 274-284): mutates the shared
opportunity object in place, writing `risk_score`, `potential_return` and
`score = potential_return / (risk_score + 0.1)`; embedded as the record
update it performs. -/
def scoreUpdate (o : TradingOpportunity) : TradingOpportunity :=
  let risk_score := calculate_risk_score o
  let potential_return := calculate_potential_return o
  { o with
    risk_score := risk_score
    potential_return := potential_return
    score := potential_return / (risk_score + 1 / 10) }

/-- Stable insertion into a descending-by-score list: skips every earlier
element with a strictly larger score and stops at the first element whose
score is not larger, so an equal-scored element that was earlier in the
input stays earlier in the output. -/
def insertDesc (x : TradingOpportunity) :
    List TradingOpportunity → List TradingOpportunity
  | [] => [x]
  | y :: ys => if x.score < y.score then y :: insertDesc x ys else x :: y :: ys

/-- Stable descending sort by `score`.  The source uses Python
`sorted(opportunities, key=lambda x: x.score, reverse=True)`
(`src/src/multi_strategy_agent.py` line 286), which is a stable descending
sort by score; stable sorts on a fixed key are extensionally unique, so this
insertion sort is the same function. -/
def sortByScoreDesc : List TradingOpportunity → List TradingOpportunity
  | [] => []
  | x :: xs => insertDesc x (sortByScoreDesc xs)

/-- Embeds `analyze_and_rank_opportunities` (`src/src/multi_strategy_agent.py`
lines 268-289): recompute the derived fields of every opportunity, then sort
by score, highest first.  The source method receives the strategy's config
but never reads it; the unused parameter is kept to mirror the signature. -/
def analyze_and_rank_opportunities (_config : TradingConfig)
    (opportunities : List TradingOpportunity) : List TradingOpportunity :=
  sortByScoreDesc (opportunities.map scoreUpdate)

/-- Embeds `TradingEngine.calculate_position_size` (`src/src/trading_engine.py`
lines 129-150): `risk_amount = balance * risk_percentage / 100`, scaled by
`1 + (1 - risk_score)`, first capped by
`balance * max_position_size / 100`, then floored at `100`.  The balance
read is `config.account_balance`. -/
def calculate_position_size (config : TradingConfig)
    (o : TradingOpportunity) : ℚ :=
  let account_balance := config.account_balance
  let risk_amount := account_balance * (config.risk_percentage / 100)
  let risk_adjustment := 1 - o.risk_score
  let position_size := risk_amount * (1 + risk_adjustment)
  let max_position := account_balance * (config.max_position_size / 100)
  let capped := pymin position_size max_position
  pymax capped 100

/-- Outcome of `should_take_position`: the source returns a boolean and
identifies the rejection reason in the log message of the failing check;
the reason constructors record which check failed first. -/
inductive AdmissionResult where
  | accept
  | insufficientCapital
  | duplicatePosition
  | riskTooHigh
  | dailyLossLimit
  | scoreTooLow
  deriving DecidableEq, Repr

/-- Embeds `MultiStrategyAgent.should_take_position`
(`src/src/multi_strategy_agent.py` lines 313-365): five checks in fixed
order, each an early `return False` — capital, duplicate position, risk
limit, daily loss limit, minimum score — else `True`. -/
def should_take_position (config : TradingConfig) (st : PortfolioState)
    (o : TradingOpportunity) : AdmissionResult :=
  let available_capital := get_available_capital st
  let position_size := calculate_position_size config o
  if position_size > available_capital then AdmissionResult.insufficientCapital
  else if has_position st o.symbol then AdmissionResult.duplicatePosition
  else if o.risk_score > config.max_risk_score then AdmissionResult.riskTooHigh
  else if st.daily_pnl < -config.max_daily_loss then AdmissionResult.dailyLossLimit
  else if o.score < config.min_score_threshold then AdmissionResult.scoreTooLow
  else AdmissionResult.accept

/-- Python `int()` applied to a float: truncation toward zero, written with
natural-number division of the numerator by the denominator so that it
evaluates by kernel reduction. -/
def pyInt (q : ℚ) : ℤ :=
  if q < 0 then -(((-q).num.toNat / (-q).den : ℕ) : ℤ)
  else ((q.num.toNat / q.den : ℕ) : ℤ)

/-- The candidate walk inside `execute_strategy_trades`
(`src/src/multi_strategy_agent.py` lines 221-254): for each ranked
candidate, if `should_take_position` accepts, compute
`shares = int(position_size / current_price)`, call `add_position`, and
increment the local `trades_executed` counter; break once that local counter
reaches `max_daily_trades`.  The `execute_trade` call only simulates and
logs; it reads no portfolio state and writes none, so it has no effect
here. -/
def executeLoop (config : TradingConfig) :
    List TradingOpportunity → PortfolioState → ℕ → PortfolioState × ℕ
  | [], st, n => (st, n)
  | o :: rest, st, n =>
    if should_take_position config st o = AdmissionResult.accept then
      let shares := pyInt (calculate_position_size config o / o.current_price)
      let st2 := add_position st o.symbol shares o.current_price o.score o.risk_score
      if n + 1 ≥ config.max_daily_trades then (st2, n + 1)
      else executeLoop config rest st2 (n + 1)
    else executeLoop config rest st n

/-- The ranking-and-admission phase of
`MultiStrategyAgent.execute_strategy_trades`
(`src/src/multi_strategy_agent.py` lines 201-266): rank the shared
candidates, then walk `ranked_opportunities[:max_daily_trades]` with the
trade loop.  The portfolio-review step between the two in the source only
marks positions to market against the external price feed (modelled
separately by `check_stop_loss_take_profit`, which takes the looked-up
price as an argument) and is orthogonal to the admission walk. -/
def execute_strategy_trades (config : TradingConfig)
    (opportunities : List TradingOpportunity) (st : PortfolioState) :
    PortfolioState × ℕ :=
  let ranked := analyze_and_rank_opportunities config opportunities
  executeLoop config (ranked.take config.max_daily_trades) st 0

/-! Helper lemmas about the positions dict. -/

theorem dictLookup_dictInsert_self (s : String) (v : Position)
    (m : List (String × Position)) :
    dictLookup s (dictInsert s v m) = some v := by
  induction m with
  | nil => simp [dictInsert, dictLookup]
  | cons kv rest ih =>
    obtain ⟨k, w⟩ := kv
    by_cases h : k = s
    · simp [dictInsert, dictLookup, h]
    · simp [dictInsert, dictLookup, h, ih]

theorem dictLookup_dictErase_self (s : String)
    (m : List (String × Position)) :
    dictLookup s (dictErase s m) = none := by
  induction m with
  | nil => rfl
  | cons kv rest ih =>
    obtain ⟨k, w⟩ := kv
    by_cases h : k = s
    · simp [dictErase, h, ih]
    · simp [dictErase, dictLookup, h, ih]

/-! Helper lemmas about the Python `min` / `max` embedding. -/

theorem pymin_le_right (a b : ℚ) : pymin a b ≤ b := by
  unfold pymin; split
  · assumption
  · exact le_refl b

theorem pymax_le_of_le (a b c : ℚ) (h1 : a ≤ c) (h2 : b ≤ c) :
    pymax a b ≤ c := by
  unfold pymax; split <;> assumption

theorem le_pymax_right (a b : ℚ) : b ≤ pymax a b := by
  unfold pymax; split
  · assumption
  · exact le_refl b

theorem pymin_nonneg (a b : ℚ) (ha : 0 ≤ a) (hb : 0 ≤ b) : 0 ≤ pymin a b := by
  unfold pymin; split <;> assumption

theorem orFalsy_pos (x d : ℚ) (hx : 0 ≤ x) (hd : 0 < d) : 0 < orFalsy x d := by
  unfold orFalsy
  split
  · exact hd
  · exact lt_of_le_of_ne hx (Ne.symm (by assumption))

/-! Helper lemmas about the stable descending sort. -/

theorem perm_insertDesc (x : TradingOpportunity) (l : List TradingOpportunity) :
    List.Perm (insertDesc x l) (x :: l) := by
  induction l with
  | nil => rfl
  | cons y ys ih =>
    unfold insertDesc
    split
    · exact (ih.cons y).trans (List.Perm.swap x y ys)
    · rfl

theorem sorted_insertDesc (x : TradingOpportunity) (l : List TradingOpportunity)
    (hl : l.Pairwise (fun a b => b.score ≤ a.score)) :
    (insertDesc x l).Pairwise (fun a b => b.score ≤ a.score) := by
  induction l with
  | nil => simp [insertDesc]
  | cons y ys ih =>
    rcases List.pairwise_cons.mp hl with ⟨hy, hys⟩
    unfold insertDesc
    split
    · rename_i hlt
      refine List.pairwise_cons.mpr ⟨?_, ih hys⟩
      intro z hz
      rcases List.mem_cons.mp ((perm_insertDesc x ys).mem_iff.mp hz) with h | h
      · subst h; exact le_of_lt hlt
      · exact hy z h
    · rename_i hnlt
      refine List.pairwise_cons.mpr ⟨?_, hl⟩
      intro z hz
      rcases List.mem_cons.mp hz with h | h
      · subst h; exact not_lt.mp hnlt
      · exact le_trans (hy z h) (not_lt.mp hnlt)

theorem filter_insertDesc (k : ℚ) (x : TradingOpportunity)
    (l : List TradingOpportunity) :
    (insertDesc x l).filter (fun o => decide (o.score = k)) =
      (x :: l).filter (fun o => decide (o.score = k)) := by
  induction l with
  | nil => rfl
  | cons y ys ih =>
    unfold insertDesc
    split
    · rename_i hlt
      by_cases hx : x.score = k
      · have hy : ¬ y.score = k := fun hyk => absurd hlt (by rw [hx, hyk]; exact lt_irrefl k)
        simp only [List.filter_cons, ih]
        simp [hy, hx]
      · simp only [List.filter_cons, ih]
        simp [hx]
    · rfl

theorem perm_sortByScoreDesc (l : List TradingOpportunity) :
    List.Perm (sortByScoreDesc l) l := by
  induction l with
  | nil => rfl
  | cons x xs ih =>
    exact (perm_insertDesc x (sortByScoreDesc xs)).trans (ih.cons x)

theorem sorted_sortByScoreDesc (l : List TradingOpportunity) :
    (sortByScoreDesc l).Pairwise (fun a b => b.score ≤ a.score) := by
  induction l with
  | nil => simp [sortByScoreDesc]
  | cons x xs ih => exact sorted_insertDesc x (sortByScoreDesc xs) ih

theorem filter_sortByScoreDesc (k : ℚ) (l : List TradingOpportunity) :
    (sortByScoreDesc l).filter (fun o => decide (o.score = k)) =
      l.filter (fun o => decide (o.score = k)) := by
  induction l with
  | nil => rfl
  | cons x xs ih =>
    calc (sortByScoreDesc (x :: xs)).filter (fun o => decide (o.score = k))
        = (x :: sortByScoreDesc xs).filter (fun o => decide (o.score = k)) :=
          filter_insertDesc k x (sortByScoreDesc xs)
      _ = (x :: xs).filter (fun o => decide (o.score = k)) := by
          simp only [List.filter_cons, ih]

/-! Helper lemmas about the trade-execution walk. -/

theorem add_position_trades_le (st : PortfolioState) (symbol : String)
    (shares : ℤ) (price score risk_score : ℚ) :
    (add_position st symbol shares price score risk_score).trades_today ≤
      st.trades_today + 1 := by
  unfold add_position
  split
  · omega
  · simp

theorem executeLoop_trades_le (config : TradingConfig) :
    ∀ (l : List TradingOpportunity) (st : PortfolioState) (n : ℕ),
      ((executeLoop config l st n).1).trades_today ≤
        st.trades_today + l.length := by
  intro l
  induction l with
  | nil => intro st n; simp [executeLoop]
  | cons o rest ih =>
    intro st n
    unfold executeLoop
    split
    · split
      · have h := add_position_trades_le st o.symbol
          (pyInt (calculate_position_size config o / o.current_price))
          o.current_price o.score o.risk_score
        simp only [List.length_cons]
        push_cast
        linarith
      · have h := add_position_trades_le st o.symbol
          (pyInt (calculate_position_size config o / o.current_price))
          o.current_price o.score o.risk_score
        have h2 := ih (add_position st o.symbol
          (pyInt (calculate_position_size config o / o.current_price))
          o.current_price o.score o.risk_score) (n + 1)
        simp only [List.length_cons]
        push_cast at h2 ⊢
        linarith
    · have h2 := ih st n
      simp only [List.length_cons]
      push_cast at h2 ⊢
      linarith

/-! Concrete fixtures used by the claim theorems. -/

/-- Default per-strategy configuration: the fallback values of
`create_strategy_config` (`src/src/multi_strategy_agent.py` lines 98-136). -/
def sampleConfig : TradingConfig :=
  { account_balance := 10000, risk_percentage := 2, max_position_size := 5,
    stop_loss_percentage := 3, take_profit_percentage := 6,
    min_score_threshold := 1 / 10, max_risk_score := 8 / 10,
    max_daily_trades := 10, max_daily_loss := 5 }

/-- A fresh portfolio with the given starting capital and no history
(`PortfolioManager.__init__`). -/
def freshState (balance : ℚ) : PortfolioState :=
  { account_balance := balance, positions := [], total_pnl := 0,
    daily_pnl := 0, trades_today := 0, last_reset_date := 0, trade_log := [] }

/-- A plain opportunity fixture with benign market data. -/
def sampleOpp : TradingOpportunity :=
  { symbol := "A", current_price := 50, volume_ratio := 1, volatility := 2 / 10,
    technical_score := 0, sentiment_score := 0, news_score := 0,
    market_cap := 1000000000, risk_score := 4 / 10 }

/-- An already-scored opportunity that every admission check passes against a
well-funded fresh portfolio under `sampleConfig`. -/
def goodOpp : TradingOpportunity :=
  { sampleOpp with
    symbol := "X", technical_score := 1,
    risk_score := 1 / 5, score := 4 / 3 }

/-- A single open position of 2 shares bought at 100. -/
def heldPos : Position :=
  { shares := 2, avg_price := 100, current_price := 100, total_value := 200,
    pnl := 0, score := 1, risk_score := 1 / 5 }

/-- A portfolio holding `heldPos` under the symbol `"A"`. -/
def heldState : PortfolioState :=
  { freshState 800 with positions := [("A", heldPos)] }

/-- C1 (counterexample): the claim says a call to `add_position` whose debit
would make capital negative is rejected with CapitalExceeded and leaves the
state unchanged.  In the code there is no such check: with capital 100,
buying 2 shares at 100 goes through, drives the balance to -100, creates the
position and increments `trades_today`. -/
theorem c1_counterexample :
    (0 : ℤ) < 2 ∧
    (freshState 100).account_balance - 2 * 100 < 0 ∧
    (add_position (freshState 100) "A" 2 100 (1/2) (1/2)).account_balance = -100 ∧
    has_position (add_position (freshState 100) "A" 2 100 (1/2) (1/2)) "A" = true ∧
    (add_position (freshState 100) "A" 2 100 (1/2) (1/2)).trades_today = 1 := by
  with_unfolding_all decide

/-- C1 (amended): for every call to `add_position` with `shares > 0`, capital
is debited by `shares * price` unconditionally — there is no CapitalExceeded
guard, so capital may go negative — a position is created, a BUY trade record
is appended, and `trades_today` is incremented by 1 (P&L fields are
untouched). -/
theorem c1_add_position_effects (st : PortfolioState) (symbol : String)
    (shares : ℤ) (price score risk_score : ℚ) (h : 0 < shares) :
    (add_position st symbol shares price score risk_score).account_balance =
      st.account_balance - shares * price ∧
    dictLookup symbol
        (add_position st symbol shares price score risk_score).positions =
      some { shares := shares, avg_price := price, current_price := price,
             total_value := shares * price, pnl := 0, score := score,
             risk_score := risk_score } ∧
    (add_position st symbol shares price score risk_score).trade_log =
      st.trade_log ++
        [{ symbol := symbol, shares := shares, price := price,
           total := shares * price, side := Side.buy,
           opportunity_score := some score, risk_score := some risk_score }] ∧
    (add_position st symbol shares price score risk_score).trades_today =
      st.trades_today + 1 ∧
    (add_position st symbol shares price score risk_score).total_pnl =
      st.total_pnl ∧
    (add_position st symbol shares price score risk_score).daily_pnl =
      st.daily_pnl := by
  have hns : ¬ shares ≤ 0 := not_le.mpr h
  unfold add_position
  rw [if_neg hns]
  exact ⟨rfl, dictLookup_dictInsert_self _ _ _, rfl, rfl, rfl, rfl⟩

/-- C1 (witness): the amended theorem applied to a concrete buy. -/
theorem c1_witness :
    (add_position (freshState 1000) "B" 3 10 0 0).account_balance =
      (freshState 1000).account_balance - 3 * 10 ∧
    (add_position (freshState 1000) "B" 3 10 0 0).trades_today =
      (freshState 1000).trades_today + 1 :=
  ⟨(c1_add_position_effects (freshState 1000) "B" 3 10 0 0 (by decide)).1,
   (c1_add_position_effects (freshState 1000) "B" 3 10 0 0 (by decide)).2.2.2.1⟩

/-- Unfolding lemma: the admission chain written as explicit nested
conditionals (definitional). -/
theorem should_take_position_eq (config : TradingConfig)
    (st : PortfolioState) (o : TradingOpportunity) :
    should_take_position config st o =
      (if get_available_capital st < calculate_position_size config o then
        AdmissionResult.insufficientCapital
      else if has_position st o.symbol then AdmissionResult.duplicatePosition
      else if config.max_risk_score < o.risk_score then
        AdmissionResult.riskTooHigh
      else if st.daily_pnl < -config.max_daily_loss then
        AdmissionResult.dailyLossLimit
      else if o.score < config.min_score_threshold then
        AdmissionResult.scoreTooLow
      else AdmissionResult.accept) := rfl

/-- C2: `should_take_position` accepts exactly when the simulated position
size fits the available capital, no position in the symbol is open, the risk
score is within the strategy limit, the daily loss limit is not breached,
and the score meets the threshold; the five checks run in exactly that
order, each short-circuiting to its own rejection; in particular it never
accepts when the simulated size exceeds available capital. -/
theorem c2_admission_spec (config : TradingConfig) (st : PortfolioState)
    (o : TradingOpportunity) :
    (should_take_position config st o = AdmissionResult.accept ↔
      (calculate_position_size config o ≤ get_available_capital st ∧
       has_position st o.symbol = false ∧
       o.risk_score ≤ config.max_risk_score ∧
       -config.max_daily_loss ≤ st.daily_pnl ∧
       config.min_score_threshold ≤ o.score)) ∧
    (get_available_capital st < calculate_position_size config o →
      should_take_position config st o = AdmissionResult.insufficientCapital) ∧
    (calculate_position_size config o ≤ get_available_capital st →
      has_position st o.symbol = true →
      should_take_position config st o = AdmissionResult.duplicatePosition) ∧
    (calculate_position_size config o ≤ get_available_capital st →
      has_position st o.symbol = false →
      config.max_risk_score < o.risk_score →
      should_take_position config st o = AdmissionResult.riskTooHigh) ∧
    (calculate_position_size config o ≤ get_available_capital st →
      has_position st o.symbol = false →
      o.risk_score ≤ config.max_risk_score →
      st.daily_pnl < -config.max_daily_loss →
      should_take_position config st o = AdmissionResult.dailyLossLimit) ∧
    (calculate_position_size config o ≤ get_available_capital st →
      has_position st o.symbol = false →
      o.risk_score ≤ config.max_risk_score →
      -config.max_daily_loss ≤ st.daily_pnl →
      o.score < config.min_score_threshold →
      should_take_position config st o = AdmissionResult.scoreTooLow) ∧
    (get_available_capital st < calculate_position_size config o →
      should_take_position config st o ≠ AdmissionResult.accept) := by
  rw [should_take_position_eq]
  split_ifs with h1 h2 h3 h4 h5 <;>
    simp_all [not_lt, not_le]

/-- C2 (witness): a concrete acceptance through the characterization. -/
theorem c2_witness :
    should_take_position sampleConfig (freshState 10000) goodOpp =
      AdmissionResult.accept :=
  (c2_admission_spec sampleConfig (freshState 10000) goodOpp).1.mpr
    ⟨by with_unfolding_all decide, by with_unfolding_all decide,
     by with_unfolding_all decide, by with_unfolding_all decide,
     by with_unfolding_all decide⟩

/-- C3: closing an open position of `s` shares at average price `a` with
close price `p` removes the position, credits capital with `s * p`, adds the
realized amount `s * (p - a)` to both `total_pnl` and `daily_pnl`, and
appends a SELL trade record. -/
theorem c3_close_position_effects (st : PortfolioState) (symbol : String)
    (pos : Position) (price : ℚ) (reason : ExitReason)
    (h : dictLookup symbol st.positions = some pos) :
    dictLookup symbol (close_position st symbol price reason).positions =
      none ∧
    (close_position st symbol price reason).account_balance =
      st.account_balance + pos.shares * price ∧
    (close_position st symbol price reason).total_pnl =
      st.total_pnl + pos.shares * (price - pos.avg_price) ∧
    (close_position st symbol price reason).daily_pnl =
      st.daily_pnl + pos.shares * (price - pos.avg_price) ∧
    (close_position st symbol price reason).trade_log =
      st.trade_log ++
        [{ symbol := symbol, shares := pos.shares, price := price,
           total := pos.shares * price, side := Side.sell,
           opportunity_score := none, risk_score := none }] := by
  unfold close_position
  rw [h]
  refine ⟨dictLookup_dictErase_self _ _, rfl, ?_, ?_, rfl⟩
  · show st.total_pnl + (pos.shares * price - pos.shares * pos.avg_price) =
      st.total_pnl + pos.shares * (price - pos.avg_price)
    ring
  · show st.daily_pnl + (pos.shares * price - pos.shares * pos.avg_price) =
      st.daily_pnl + pos.shares * (price - pos.avg_price)
    ring

/-- C3 (witness): closing the concrete held position at 110. -/
theorem c3_witness :
    (close_position heldState "A" 110 ExitReason.manual).account_balance =
      heldState.account_balance + heldPos.shares * 110 ∧
    dictLookup "A" (close_position heldState "A" 110 ExitReason.manual).positions =
      none :=
  ⟨(c3_close_position_effects heldState "A" heldPos 110 ExitReason.manual
      (by with_unfolding_all decide)).2.1,
   (c3_close_position_effects heldState "A" heldPos 110 ExitReason.manual
      (by with_unfolding_all decide)).1⟩

/-- The risk-score formula exactly as claim C4 words it: defaults apply to a
zero `volume_ratio` but only to *missing* volatility and market cap (a
plain-float field is never missing, so those two are used as given), and the
product is clamped into the interval from 0 to 1. -/
def c4ClaimRiskScore (o : TradingOpportunity) : ℚ :=
  let volume_ratio := if o.volume_ratio = 0 then 1 else o.volume_ratio
  pymax (pymin (o.volatility * (1 / volume_ratio) * (1000000000 / o.market_cap)) 1) 0

/-- C4 (counterexample): the code funnels every field through the Python
`or` default, so a *zero* volatility also falls back to 0.2; the claim's
formula keeps a zero volatility and yields 0.  At volatility 0,
volume_ratio 1, market cap 1e9 — all finite and non-negative — the code
computes 1/5, not the claimed 0. -/
theorem c4_counterexample :
    (0 : ℚ) ≤ ({ sampleOpp with volatility := 0 } : TradingOpportunity).volatility ∧
    (0 : ℚ) ≤ ({ sampleOpp with volatility := 0 } : TradingOpportunity).volume_ratio ∧
    (0 : ℚ) ≤ ({ sampleOpp with volatility := 0 } : TradingOpportunity).market_cap ∧
    calculate_risk_score { sampleOpp with volatility := 0 } = 1/5 ∧
    c4ClaimRiskScore { sampleOpp with volatility := 0 } = 0 ∧
    calculate_risk_score { sampleOpp with volatility := 0 } ≠
      c4ClaimRiskScore { sampleOpp with volatility := 0 } := by
  with_unfolding_all decide

/-- C4 (amended): with the zero-or-missing default applied to all three
fields (volatility to 0.2, volume_ratio to 1, market cap to 1e9), the
computed risk score equals the capped product, and for finite non-negative
inputs it always lies in the interval from 0 to 1. -/
theorem c4_risk_score_bounds (o : TradingOpportunity)
    (hv : 0 ≤ o.volatility) (hr : 0 ≤ o.volume_ratio) (hm : 0 ≤ o.market_cap) :
    calculate_risk_score o =
      pymin (orFalsy o.volatility (2 / 10) * (1 / orFalsy o.volume_ratio 1) *
        (1000000000 / orFalsy o.market_cap 1000000000)) 1 ∧
    0 ≤ calculate_risk_score o ∧ calculate_risk_score o ≤ 1 := by
  refine ⟨rfl, ?_, ?_⟩
  · unfold calculate_risk_score
    apply pymin_nonneg _ _ _ (by norm_num)
    have h1 : 0 ≤ orFalsy o.volatility (2 / 10) :=
      le_of_lt (orFalsy_pos _ _ hv (by norm_num))
    have h2 : 0 < orFalsy o.volume_ratio 1 := orFalsy_pos _ _ hr one_pos
    have h3 : 0 < orFalsy o.market_cap 1000000000 :=
      orFalsy_pos _ _ hm (by norm_num)
    have h4 : (0:ℚ) ≤ 1 / orFalsy o.volume_ratio 1 :=
      le_of_lt (by positivity)
    have h5 : (0:ℚ) ≤ 1000000000 / orFalsy o.market_cap 1000000000 :=
      le_of_lt (by positivity)
    exact mul_nonneg (mul_nonneg h1 h4) h5
  · unfold calculate_risk_score
    exact pymin_le_right _ _

/-- C4 (witness): the bounds at the concrete sample opportunity. -/
theorem c4_witness :
    0 ≤ calculate_risk_score sampleOpp ∧ calculate_risk_score sampleOpp ≤ 1 :=
  ⟨(c4_risk_score_bounds sampleOpp (by with_unfolding_all decide)
      (by with_unfolding_all decide) (by with_unfolding_all decide)).2.1,
   (c4_risk_score_bounds sampleOpp (by with_unfolding_all decide)
      (by with_unfolding_all decide) (by with_unfolding_all decide)).2.2⟩

/-- C5 (counterexample): the claim says the simulated position size never
exceeds `capital * max_position_pct / 100`.  The code applies the $100 floor
*after* the cap, so whenever the cap is under $100 the floor wins: with
capital 1000, risk 2%, cap 5% (= $50) and risk score 0 the code returns
$100 > $50. -/
theorem c5_counterexample :
    calculate_position_size { sampleConfig with account_balance := 1000 }
      { sampleOpp with risk_score := 0 } = 100 ∧
    ({ sampleConfig with account_balance := 1000 } : TradingConfig).account_balance *
      (({ sampleConfig with account_balance := 1000 } : TradingConfig).max_position_size / 100) = 50 ∧
    ¬ (calculate_position_size { sampleConfig with account_balance := 1000 }
        { sampleOpp with risk_score := 0 } ≤
      ({ sampleConfig with account_balance := 1000 } : TradingConfig).account_balance *
        (({ sampleConfig with account_balance := 1000 } : TradingConfig).max_position_size / 100)) := by
  with_unfolding_all decide

/-- C5 (amended): the simulated position size equals the raw risk-scaled
amount first capped at `capital * max_position_pct / 100` and then floored
at $100; hence it is always at least $100, and it respects the cap whenever
the cap itself is at least $100; the claim's concrete example (capital
10000, risk 2%, cap 5%, risk score 0.4) yields exactly 320. -/
theorem c5_position_size_spec (config : TradingConfig)
    (o : TradingOpportunity) :
    calculate_position_size config o =
      pymax (pymin (config.account_balance * (config.risk_percentage / 100) *
          (1 + (1 - o.risk_score)))
        (config.account_balance * (config.max_position_size / 100))) 100 ∧
    100 ≤ calculate_position_size config o ∧
    (100 ≤ config.account_balance * (config.max_position_size / 100) →
      calculate_position_size config o ≤
        config.account_balance * (config.max_position_size / 100)) ∧
    calculate_position_size sampleConfig sampleOpp = 320 := by
  refine ⟨rfl, le_pymax_right _ _, ?_, by with_unfolding_all decide⟩
  intro hcap
  exact pymax_le_of_le _ _ _ (pymin_le_right _ _) hcap

/-- C5 (witness): the cap is respected at the sample configuration, whose
cap of $500 is above the floor. -/
theorem c5_witness :
    calculate_position_size sampleConfig sampleOpp ≤
      sampleConfig.account_balance * (sampleConfig.max_position_size / 100) :=
  (c5_position_size_spec sampleConfig sampleOpp).2.2.1
    (by with_unfolding_all decide)

/-- C6: on an open position bought at `a`, the exit evaluation computes
`pct = (p - a) / a * 100`, closes with STOP_LOSS when
`pct ≤ -stop_loss_pct` (checked first), otherwise closes with TAKE_PROFIT
when `pct ≥ take_profit_pct`, otherwise changes nothing; with average price
100 and a 3% stop, price 97.00 triggers the stop-loss and 97.01 does not. -/
theorem c6_exit_evaluation (config : TradingConfig) (st : PortfolioState)
    (symbol : String) (pos : Position) (price : ℚ)
    (h : dictLookup symbol st.positions = some pos) :
    ((price - pos.avg_price) / pos.avg_price * 100 ≤
        -config.stop_loss_percentage →
      exitDecision config pos.avg_price price = some ExitReason.stopLoss ∧
      check_stop_loss_take_profit config st symbol price =
        close_position st symbol price ExitReason.stopLoss) ∧
    (¬ ((price - pos.avg_price) / pos.avg_price * 100 ≤
        -config.stop_loss_percentage) →
      config.take_profit_percentage ≤
        (price - pos.avg_price) / pos.avg_price * 100 →
      exitDecision config pos.avg_price price = some ExitReason.takeProfit ∧
      check_stop_loss_take_profit config st symbol price =
        close_position st symbol price ExitReason.takeProfit) ∧
    (¬ ((price - pos.avg_price) / pos.avg_price * 100 ≤
        -config.stop_loss_percentage) →
      ¬ (config.take_profit_percentage ≤
        (price - pos.avg_price) / pos.avg_price * 100) →
      check_stop_loss_take_profit config st symbol price = st) ∧
    exitDecision sampleConfig 100 97 = some ExitReason.stopLoss ∧
    exitDecision sampleConfig 100 (9701 / 100) = none := by
  refine ⟨?_, ?_, ?_, by with_unfolding_all decide, by with_unfolding_all decide⟩
  · intro hsl
    have hd : exitDecision config pos.avg_price price =
        some ExitReason.stopLoss := by
      unfold exitDecision
      exact if_pos hsl
    refine ⟨hd, ?_⟩
    unfold check_stop_loss_take_profit
    rw [h]
    show (match exitDecision config pos.avg_price price with
          | some r => close_position st symbol price r
          | none => st) = close_position st symbol price ExitReason.stopLoss
    rw [hd]
  · intro hns htp
    have hd : exitDecision config pos.avg_price price =
        some ExitReason.takeProfit := by
      unfold exitDecision
      rw [if_neg hns, if_pos htp]
    refine ⟨hd, ?_⟩
    unfold check_stop_loss_take_profit
    rw [h]
    show (match exitDecision config pos.avg_price price with
          | some r => close_position st symbol price r
          | none => st) = close_position st symbol price ExitReason.takeProfit
    rw [hd]
  · intro hns hnt
    have hd : exitDecision config pos.avg_price price = none := by
      unfold exitDecision
      rw [if_neg hns, if_neg hnt]
    unfold check_stop_loss_take_profit
    rw [h]
    show (match exitDecision config pos.avg_price price with
          | some r => close_position st symbol price r
          | none => st) = st
    rw [hd]

/-- C6 (witness): the held position at average 100 stop-losses at 97. -/
theorem c6_witness :
    exitDecision sampleConfig heldPos.avg_price 97 = some ExitReason.stopLoss ∧
    check_stop_loss_take_profit sampleConfig heldState "A" 97 =
      close_position heldState "A" 97 ExitReason.stopLoss :=
  (c6_exit_evaluation sampleConfig heldState "A" heldPos 97
    (by with_unfolding_all decide)).1 (by with_unfolding_all decide)

/-- C7: ranking is a deterministic pure function of the candidate list (the
strategy config is not even read); its output is the rescored candidates in
descending score order, and candidates with equal scores keep their relative
discovery order (stability, expressed by filtering on any fixed score
value). -/
theorem c7_ranking_spec (config : TradingConfig)
    (l : List TradingOpportunity) :
    (analyze_and_rank_opportunities config l).Pairwise
      (fun a b => b.score ≤ a.score) ∧
    (∀ k : ℚ,
      (analyze_and_rank_opportunities config l).filter
          (fun o => decide (o.score = k)) =
        (l.map scoreUpdate).filter (fun o => decide (o.score = k))) ∧
    List.Perm (analyze_and_rank_opportunities config l) (l.map scoreUpdate) ∧
    (∀ config2 : TradingConfig,
      analyze_and_rank_opportunities config2 l =
        analyze_and_rank_opportunities config l) :=
  ⟨sorted_sortByScoreDesc _, fun k => filter_sortByScoreDesc k _,
   perm_sortByScoreDesc _, fun _ => rfl⟩

set_option maxRecDepth 4000

/-- Strategy configuration with a one-trade daily cap. -/
def c8LimitConfig : TradingConfig :=
  { sampleConfig with max_daily_trades := 1 }

/-- Three equally attractive candidates in discovery order X, Y, Z, all of
which the admission checks pass against a fresh well-funded portfolio. -/
def c8Candidates : List TradingOpportunity :=
  [goodOpp, { goodOpp with symbol := "Y" }, { goodOpp with symbol := "Z" }]

/-- C8 (counterexample): the claim says the candidate walk stops as soon as
the strategy's `trades_today` counter reaches `max_daily_trades`, so a day
never exceeds that many opens.  The loop actually slices the ranked list and
counts with a *local* counter that starts at zero, never consulting
`trades_today`: with `max_daily_trades = 1` and `trades_today` already 1
from an earlier open that day, one more admissible candidate is still
opened, leaving `trades_today = 2`. -/
theorem c8_counterexample :
    c8LimitConfig.max_daily_trades = 1 ∧
    ({ freshState 10000 with trades_today := 1 } : PortfolioState).trades_today = 1 ∧
    (execute_strategy_trades c8LimitConfig [goodOpp]
      { freshState 10000 with trades_today := 1 }).1.trades_today = 2 := by
  with_unfolding_all decide

/-- C8 (amended): each invocation of the candidate walk considers only the
first `max_daily_trades` ranked candidates and counts executed trades with a
per-call counter, so `trades_today` grows by at most `max_daily_trades` per
invocation (per day only if the walk runs once that day); a strategy with
`max_daily_trades = 1` given admissible ranked candidates X, Y, Z opens
only X. -/
theorem c8_daily_trade_cap (config : TradingConfig)
    (l : List TradingOpportunity) (st : PortfolioState) :
    ((execute_strategy_trades config l st).1.trades_today ≤
      st.trades_today + (config.max_daily_trades : ℤ)) ∧
    (execute_strategy_trades c8LimitConfig c8Candidates
      (freshState 10000)).1.trades_today = 1 ∧
    ((execute_strategy_trades c8LimitConfig c8Candidates
      (freshState 10000)).1.positions).map Prod.fst = ["X"] := by
  refine ⟨?_, by with_unfolding_all decide, by with_unfolding_all decide⟩
  have h := executeLoop_trades_le config
    ((analyze_and_rank_opportunities config l).take config.max_daily_trades)
    st 0
  have hlen : (((analyze_and_rank_opportunities config l).take
      config.max_daily_trades).length : ℤ) ≤ (config.max_daily_trades : ℤ) := by
    exact_mod_cast List.length_take_le _ _
  unfold execute_strategy_trades
  exact le_trans h (by linarith)

/-- Helper: `reset_daily_stats` is the identity when the polled date equals
the stored one. -/
theorem reset_daily_stats_of_eq (st : PortfolioState) (d : ℤ)
    (h : d = st.last_reset_date) : reset_daily_stats st d = st := by
  simp [reset_daily_stats, h]

/-- Helper: `reset_daily_stats` zeroes the daily counters and stores the
polled date when the dates differ. -/
theorem reset_daily_stats_of_ne (st : PortfolioState) (d : ℤ)
    (h : d ≠ st.last_reset_date) :
    reset_daily_stats st d =
      { st with daily_pnl := 0, trades_today := 0, last_reset_date := d } := by
  unfold reset_daily_stats
  rw [if_pos h]

/-- A portfolio carrying nonzero daily counters stored under date 0. -/
def staleState : PortfolioState :=
  { freshState 1000 with trades_today := 5, daily_pnl := 7 }

/-- C9 (counterexample): the claim says the daily reset is triggered by a
day-rollover notification and not by polling wall-clock time.
`reset_daily_stats` does the opposite: its outcome is a function of the
polled `datetime.now().date()` value — the same state is left untouched
when the sampled date equals the stored one and is reset when it differs —
and no rollover notification exists (nothing in the repository even calls
this method). -/
theorem c9_counterexample :
    staleState.trades_today = 5 ∧ staleState.daily_pnl = 7 ∧
    reset_daily_stats staleState staleState.last_reset_date = staleState ∧
    (reset_daily_stats staleState (staleState.last_reset_date + 1)).trades_today = 0 ∧
    (reset_daily_stats staleState (staleState.last_reset_date + 1)).daily_pnl = 0 := by
  with_unfolding_all decide

/-- C9 (amended): `reset_daily_stats` resets `daily_pnl` and `trades_today`
to 0 exactly when the wall-clock date polled at call time differs from
`last_reset_date`, updates `last_reset_date`, and leaves all other state
alone; once reset, further calls on the same polled date are no-ops, so the
counters reset at most once per date regardless of how often the method is
called. -/
theorem c9_reset_spec (st : PortfolioState) (today : ℤ) :
    (today = st.last_reset_date → reset_daily_stats st today = st) ∧
    (today ≠ st.last_reset_date →
      (reset_daily_stats st today).daily_pnl = 0 ∧
      (reset_daily_stats st today).trades_today = 0 ∧
      (reset_daily_stats st today).last_reset_date = today ∧
      (reset_daily_stats st today).account_balance = st.account_balance ∧
      (reset_daily_stats st today).positions = st.positions ∧
      (reset_daily_stats st today).total_pnl = st.total_pnl ∧
      (reset_daily_stats st today).trade_log = st.trade_log ∧
      reset_daily_stats (reset_daily_stats st today) today =
        reset_daily_stats st today) := by
  refine ⟨reset_daily_stats_of_eq st today, fun h => ?_⟩
  rw [reset_daily_stats_of_ne st today h]
  exact ⟨rfl, rfl, rfl, rfl, rfl, rfl, rfl,
    reset_daily_stats_of_eq _ today rfl⟩

/-- C9 (witness): the amended theorem at the stale fixture and polled
date 1. -/
theorem c9_witness :
    (reset_daily_stats staleState 1).daily_pnl = 0 ∧
    (reset_daily_stats staleState 1).trades_today = 0 :=
  ⟨((c9_reset_spec staleState 1).2 (by with_unfolding_all decide)).1,
   ((c9_reset_spec staleState 1).2 (by with_unfolding_all decide)).2.1⟩

/-- C10 (counterexample): the claim says no per-strategy processing step
mutates any field of a shared `TradingOpportunity` and that ranking leaves
the candidates' contents unchanged.  The ranking loop writes `risk_score`,
`potential_return` and `score` in place on every shared candidate: ranking
a one-element list yields the rescored object, whose `score` and
`risk_score` differ from the object's previous contents. -/
theorem c10_counterexample :
    analyze_and_rank_opportunities sampleConfig
        [{ sampleOpp with technical_score := 1 }] =
      [scoreUpdate { sampleOpp with technical_score := 1 }] ∧
    (scoreUpdate { sampleOpp with technical_score := 1 }).score ≠
      ({ sampleOpp with technical_score := 1 } : TradingOpportunity).score ∧
    (scoreUpdate { sampleOpp with technical_score := 1 }).risk_score ≠
      ({ sampleOpp with technical_score := 1 } : TradingOpportunity).risk_score := by
  refine ⟨rfl, by with_unfolding_all decide, by with_unfolding_all decide⟩

/-- C10 (amended): within a cycle the per-strategy pipeline treats the base
market data of every shared candidate as read-only — the ranking pass
rewrites only the derived fields (`risk_score`, `potential_return`,
`score`), leaving symbol, prices, scores and market cap as discovered — and
the values it writes are independent of the strategy's configuration, so
every strategy observes the same candidate data. -/
theorem c10_rank_touches_only_derived (o : TradingOpportunity) :
    (scoreUpdate o).symbol = o.symbol ∧
    (scoreUpdate o).current_price = o.current_price ∧
    (scoreUpdate o).volume_ratio = o.volume_ratio ∧
    (scoreUpdate o).volatility = o.volatility ∧
    (scoreUpdate o).technical_score = o.technical_score ∧
    (scoreUpdate o).sentiment_score = o.sentiment_score ∧
    (scoreUpdate o).news_score = o.news_score ∧
    (scoreUpdate o).market_cap = o.market_cap ∧
    (∀ config1 config2 : TradingConfig, ∀ l : List TradingOpportunity,
      analyze_and_rank_opportunities config1 l =
        analyze_and_rank_opportunities config2 l) :=
  ⟨rfl, rfl, rfl, rfl, rfl, rfl, rfl, rfl, fun _ _ _ => rfl⟩

end StockBuyer
